import Mathlib

/-!
Verification development for the E2Toolkit core (satellite/transponder codec,
flag/reference codec, picon identifiers, and the FTP/telnet/HTTP sync
orchestrator).  Python values that may be `None` or `str` are modelled as
`Option String`; Python dictionaries with string keys are modelled as
association lists in source order; exceptions are modelled with `Option` /
`Except`.  All definitions are shallow embeddings of the corresponding
functions in `app/enigma/ecommons.py`, `app/satellites/satxml.py`,
`app/connections.py`, `app/streams/iptv.py`, `app/ui/main.py` and
`app/ui/dialogs.py`.
-/

namespace E2Toolkit

/-! ### Python primitives -/

/-- Kinds of Python exceptions distinguished by the embedded code. -/
inductive PyErr where
  | typeError
  | valueError
  | keyError
  deriving Repr, DecidableEq

/-- A Python value that is either `None` or a string (the only values the
embedded code stores in the fields we model). -/
abbrev PyStr := Option String

/-- Python truthiness of a `None`-or-string value: `None` and `""` are falsy. -/
def pyTruthy : PyStr → Bool
  | none => false
  | some s => !(s.isEmpty)

/-- Decimal digit test used to model Python `str.isdigit` (ASCII scope). -/
def strIsDigit (s : String) : Bool :=
  !s.isEmpty && s.data.all Char.isDigit

/-- Value of a decimal digit string. -/
def decDigitsVal (s : String) : Nat :=
  s.data.foldl (fun acc c => acc * 10 + (c.toNat - '0'.toNat)) 0

/-- Value of one hexadecimal digit (0 for non-hex characters; callers guard). -/
def hexDigitVal (c : Char) : Nat :=
  if c.isDigit then c.toNat - '0'.toNat
  else if 'a' ≤ c ∧ c ≤ 'f' then c.toNat - 'a'.toNat + 10
  else if 'A' ≤ c ∧ c ≤ 'F' then c.toNat - 'A'.toNat + 10
  else 0

/-- Hexadecimal digit test. -/
def isHexDigit (c : Char) : Bool :=
  c.isDigit || ('a' ≤ c && c ≤ 'f') || ('A' ≤ c && c ≤ 'F')

/-- Value of a hexadecimal digit string. -/
def hexDigitsVal (s : String) : Nat :=
  s.data.foldl (fun acc c => acc * 16 + hexDigitVal c) 0

/-- Model of Python `int(s)` on a string: optional sign followed by a
non-empty run of decimal digits; anything else raises `ValueError`
(ASCII scope, no underscores or surrounding whitespace). -/
def pyIntOfString (s : String) : Except PyErr Int :=
  let core (t : String) (sign : Int) : Except PyErr Int :=
    if strIsDigit t then .ok (sign * (decDigitsVal t : Int)) else .error .valueError
  match s.data with
  | '-' :: rest => core (String.mk rest) (-1)
  | '+' :: rest => core (String.mk rest) 1
  | _ => core s 1

/-- Model of Python `int(s, 16)`: optional sign, optional `0x`/`0X` prefix,
then a non-empty run of hex digits; anything else raises `ValueError`
(ASCII scope, no underscores or surrounding whitespace). -/
def pyIntOfHexString (s : String) : Except PyErr Int :=
  let sign : Int :=
    if s.data.head? = some '-' then -1 else 1
  let t1 : List Char :=
    if s.data.head? = some '-' ∨ s.data.head? = some '+' then s.data.tail else s.data
  let t2 : List Char :=
    if t1.take 2 = ['0', 'x'] ∨ t1.take 2 = ['0', 'X'] then t1.drop 2 else t1
  if t2 ≠ [] ∧ t2.all isHexDigit then .ok (sign * (hexDigitsVal (String.mk t2) : Int))
  else .error .valueError

/-- Model of Python `int(v)` on a `None`-or-string value: `None` raises
`TypeError`, a string is parsed as a decimal integer or raises `ValueError`. -/
def pyInt : PyStr → Except PyErr Int
  | none => .error .typeError
  | some s => pyIntOfString s

/-! ### `app/enigma/ecommons.py` — lookup tables and `Flag` -/

/-- `POLARIZATION` table (source order). -/
def POLARIZATION : List (String × String) :=
  [("0", "H"), ("1", "V"), ("2", "L"), ("3", "R")]

/-- `FEC` table (source order). -/
def FEC : List (String × String) :=
  [("0", "Auto"), ("1", "1/2"), ("2", "2/3"), ("3", "3/4"), ("4", "5/6"),
   ("5", "7/8"), ("6", "8/9"), ("7", "3/5"), ("8", "4/5"), ("9", "9/10"),
   ("10", "1/2"), ("11", "2/3"), ("12", "3/4"), ("13", "5/6"), ("14", "7/8"),
   ("15", "8/9"), ("16", "3/5"), ("17", "4/5"), ("18", "9/10"), ("19", "1/2"),
   ("20", "2/3"), ("21", "3/4"), ("22", "5/6"), ("23", "7/8"), ("24", "8/9"),
   ("25", "3/5"), ("26", "4/5"), ("27", "9/10"), ("28", "Auto")]

/-- `SYSTEM` table (source order). -/
def SYSTEM : List (String × String) :=
  [("0", "DVB-S"), ("1", "DVB-S2")]

/-- `MODULATION` table (source order). -/
def MODULATION : List (String × String) :=
  [("0", "Auto"), ("1", "QPSK"), ("2", "8PSK"), ("4", "16APSK"), ("5", "32APSK")]

/-- Python `dict[key]` on a string-keyed table applied to a `None`-or-string
value: `None` or a missing key raises `KeyError`. -/
def dictGet (dc : List (String × String)) : PyStr → Except PyErr String
  | none => .error .keyError
  | some k =>
      match dc.find? (fun p => p.1 = k) with
      | some p => .ok p.2
      | none => .error .keyError

/-- Python `dict.values()` membership for a `None`-or-string value. -/
def dictValuesMem (dc : List (String × String)) : PyStr → Bool
  | none => false
  | some v => dc.any (fun p => p.2 = v)

namespace Flag

/-- `Flag.parse` (`ecommons.py`): length below 3 returns 0; otherwise the
first two characters are stripped, an all-digit remainder is parsed as
decimal, anything else as hexadecimal (`ValueError` is modelled as `none`). -/
def parse (value : String) : Option Int :=
  if value.length < 3 then some 0
  else
    let v := value.drop 2
    if strIsDigit v then some (decDigitsVal v : Int)
    else (pyIntOfHexString v).toOption

/-- `Flag.is_keep`: tests bit 0. -/
def is_keep (value : Nat) : Nat := value &&& (1 <<< 0)

/-- `Flag.is_hide`: tests bit 1. -/
def is_hide (value : Nat) : Nat := value &&& (1 <<< 1)

/-- `Flag.is_pids`: tests bit 2. -/
def is_pids (value : Nat) : Nat := value &&& (1 <<< 2)

/-- `Flag.is_new`: tests bit 5. -/
def is_new (value : Nat) : Nat := value &&& (1 <<< 5)

end Flag

/-! ### `app/satellites/satxml.py` — satellite/transponder codec

The XML documents handled by this module always have the fixed shape
`document → optional comment → <satellites> → <sat> → <transponder>`; the
embedding represents that shape directly.  Attribute values are `PyStr`
(`minidom.setAttribute` stores whatever Python value it is given, including
`None`), attribute lists are kept in `setAttribute` order. -/

/-- `Transponder` namedtuple (`ecommons.py`): every field is `None`-or-string. -/
structure Transponder where
  frequency : PyStr
  symbol_rate : PyStr
  polarization : PyStr
  fec_inner : PyStr
  system : PyStr
  modulation : PyStr
  pls_mode : PyStr
  pls_code : PyStr
  is_id : PyStr
  deriving Repr, DecidableEq

/-- `Satellite` namedtuple (`ecommons.py`). -/
structure Satellite where
  name : PyStr
  flags : PyStr
  position : PyStr
  transponders : List Transponder
  deriving Repr, DecidableEq

/-- A `<transponder>` element: just its attribute list (name, stored value). -/
structure TrElem where
  attrs : List (String × PyStr)
  deriving Repr, DecidableEq

/-- A `<sat>` element: its attributes and nested `<transponder>` elements. -/
structure SatElem where
  attrs : List (String × PyStr)
  transponders : List TrElem
  deriving Repr, DecidableEq

/-- A satellites document: optional leading comment node and the `<sat>`
children of the `<satellites>` root. -/
structure XDoc where
  comment : Option String
  sats : List SatElem
  deriving Repr, DecidableEq

/-- Attribute access `atr[name].value`: `KeyError` when absent. -/
def attrValue (attrs : List (String × PyStr)) (name : String) : Except PyErr PyStr :=
  match attrs.find? (fun p => p.1 = name) with
  | some p => .ok p.2
  | none => .error .keyError

/-- Attribute presence test `name in atr`. -/
def hasAttr (attrs : List (String × PyStr)) (name : String) : Bool :=
  (attrs.find? (fun p => p.1 = name)).isSome

/-- Optional attribute read `atr[n].value if n in atr else None`. -/
def optAttr (attrs : List (String × PyStr)) (name : String) : PyStr :=
  match attrs.find? (fun p => p.1 = name) with
  | some p => p.2
  | none => none

/-- The `__COMMENT` block written at the top of every generated file. -/
def satXmlComment : String :=
  "This file was created in E2Toolkit.\n\nusable flags are\n\t1: Network Scan\n\t2: use BAT\n\t4: use ONIT\n\t8: skip NITs of known networks\n\tand combinations of this.\n\ntransponder parameters:\npolarization: 0 - Horizontal, 1 - Vertical, 2 - Left Circular, 3 - Right Circular\nfec_inner: 0 - Auto, 1 - 1/2, 2 - 2/3, 3 - 3/4, 4 - 5/6, 5 - 7/8, 6 -  8/9, 7 - 3/5,\n8 - 4/5, 9 - 9/10, 15 - None\nmodulation: 0 - Auto, 1 - QPSK, 2 - 8PSK, 4 - 16APSK, 5 - 32APSK\nrolloff: 0 - 0.35, 1 - 0.25, 2 - 0.20, 3 - Auto\npilot: 0 - Off, 1 - On, 2 - Auto\ninversion: 0 = Off, 1 = On, 2 = Auto (default)\nsystem: 0 = DVB-S, 1 = DVB-S2\nis_id: 0 - 255\npls_mode: 0 - Root, 1 - Gold, 2 - Combo\npls_code: 0 - 262142\n\n"

/-- Body of the `try` block of `parse_transponders` for one element. -/
def parseTransponder1 (el : TrElem) : Except PyErr Transponder := do
  let freq ← attrValue el.attrs "frequency"
  let rate ← attrValue el.attrs "symbol_rate"
  let polv ← attrValue el.attrs "polarization"
  let pol ← dictGet POLARIZATION polv
  let fecv ← attrValue el.attrs "fec_inner"
  let fec ← dictGet FEC fecv
  let sysv ← attrValue el.attrs "system"
  let sys ← dictGet SYSTEM sysv
  let modv ← attrValue el.attrs "modulation"
  let md ← dictGet MODULATION modv
  .ok { frequency := freq, symbol_rate := rate, polarization := some pol,
        fec_inner := some fec, system := some sys, modulation := some md,
        pls_mode := optAttr el.attrs "pls_mode",
        pls_code := optAttr el.attrs "pls_code",
        is_id := optAttr el.attrs "is_id" }

/-- `parse_transponders`: elements without attributes are ignored, and a
transponder whose parse raises is logged and skipped. -/
def parse_transponders (els : List TrElem) : List Transponder :=
  els.filterMap (fun el =>
    if el.attrs.isEmpty then none else (parseTransponder1 el).toOption)

/-- `parse_sat`: reads `name`/`flags`/`position` (a missing attribute raises
`KeyError`, which propagates) and the nested transponders. -/
def parse_sat (el : SatElem) : Except PyErr Satellite := do
  let nm ← attrValue el.attrs "name"
  let fl ← attrValue el.attrs "flags"
  let pos ← attrValue el.attrs "position"
  .ok { name := nm, flags := fl, position := pos,
        transponders := parse_transponders el.transponders }

/-- `get_satellites`: every `sat` element that has attributes is parsed;
an exception from `parse_sat` aborts the whole parse. -/
def get_satellites (doc : XDoc) : Except PyErr (List Satellite) :=
  (doc.sats.filter (fun el => !el.attrs.isEmpty)).mapM parse_sat

/-- `get_key_by_value`: first key of the table whose value equals the given
Python value, else Python `None`. -/
def get_key_by_value (dc : List (String × String)) (value : PyStr) : Option String :=
  (dc.find? (fun p => some p.2 = value)).map (fun p => p.1)

/-- Python `x or "0"` applied to the result of `get_key_by_value`. -/
def pyOrZero (v : Option String) : String :=
  match v with
  | some s => if s.isEmpty then "0" else s
  | none => "0"

/-- The `<transponder>` element built by the body of the inner loop of
`write_satellites` (attributes in `setAttribute` order; note that the
`polarization` attribute is set to the raw `get_key_by_value` result, which
is `None` when the value is unresolvable, while `fec_inner`, `system` and
`modulation` get the `or "0"` fallback; `pls_mode`/`pls_code`/`is_id` are
set only when truthy). -/
def writeTrElem (tr : Transponder) : TrElem :=
  { attrs :=
      [("frequency", tr.frequency),
       ("symbol_rate", tr.symbol_rate),
       ("polarization", get_key_by_value POLARIZATION tr.polarization),
       ("fec_inner", some (pyOrZero (get_key_by_value FEC tr.fec_inner))),
       ("system", some (pyOrZero (get_key_by_value SYSTEM tr.system))),
       ("modulation", some (pyOrZero (get_key_by_value MODULATION tr.modulation)))]
      ++ (if pyTruthy tr.pls_mode then [("pls_mode", tr.pls_mode)] else [])
      ++ (if pyTruthy tr.pls_code then [("pls_code", tr.pls_code)] else [])
      ++ (if pyTruthy tr.is_id then [("is_id", tr.is_id)] else []) }

/-- The `<sat>` element built by the outer loop of `write_satellites`. -/
def writeSatElem (sat : Satellite) : SatElem :=
  { attrs := [("name", sat.name), ("flags", sat.flags), ("position", sat.position)],
    transponders := sat.transponders.map writeTrElem }

/-- `write_satellites`: the document handed to `Document.writexml`. -/
def write_satellites (sats : List Satellite) : XDoc :=
  { comment := some satXmlComment, sats := sats.map writeSatElem }

/-! `minidom` serialization with `indent=""`, `addindent="    "`, `newl="\n"`,
`encoding="iso-8859-1"`, as invoked by `write_satellites`. -/

/-- `minidom._write_data` escaping of one character: the sequential
`replace` chain `& → &amp;`, `< → &lt;`, `" → &quot;`, `> → &gt;` acts
character-wise (no replacement output is rescanned by a later stage that
could match inside it, since the `&` stage runs first). -/
def escapeAttrChar (c : Char) : String :=
  if c = '&' then "&amp;"
  else if c = '<' then "&lt;"
  else if c = '"' then "&quot;"
  else if c = '>' then "&gt;"
  else String.mk [c]

/-- `minidom._write_data` escaping for attribute data. -/
def escapeAttrData (s : String) : String :=
  String.join (s.data.map escapeAttrChar)

/-- One serialized attribute: a stored `None` (and an empty string) is falsy
in `_write_data`, so nothing is written between the quotes. -/
def renderAttr (p : String × PyStr) : String :=
  " " ++ p.1 ++ "=\"" ++
    (match p.2 with
     | none => ""
     | some s => if s.isEmpty then "" else escapeAttrData s) ++ "\""

/-- Serialized attribute list. -/
def renderAttrs (attrs : List (String × PyStr)) : String :=
  String.join (attrs.map renderAttr)

/-- Serialized `<transponder>` element (always childless, so self-closing). -/
def renderTrElem (indent : String) (t : TrElem) : String :=
  indent ++ "<transponder" ++ renderAttrs t.attrs ++ "/>\n"

/-- Serialized `<sat>` element. -/
def renderSatElem (indent addindent : String) (s : SatElem) : String :=
  if s.transponders.isEmpty then
    indent ++ "<sat" ++ renderAttrs s.attrs ++ "/>\n"
  else
    indent ++ "<sat" ++ renderAttrs s.attrs ++ ">\n"
    ++ String.join (s.transponders.map (renderTrElem (indent ++ addindent)))
    ++ indent ++ "</sat>\n"

/-- Serialized document: XML declaration, optional comment node, then the
`<satellites>` root, exactly as `doc.writexml(f, addindent="    ",
newl="\n", encoding="iso-8859-1")` emits it. -/
def renderDoc (doc : XDoc) : String :=
  "<?xml version=\"1.0\" encoding=\"iso-8859-1\"?>\n"
  ++ (match doc.comment with
      | some c => "<!--" ++ c ++ "-->\n"
      | none => "")
  ++ (if doc.sats.isEmpty then "<satellites/>\n"
      else "<satellites>\n"
           ++ String.join (doc.sats.map (renderSatElem "    " "    "))
           ++ "</satellites>\n")

/-- Transponders for which the write→parse round trip is lossless: every
enum-coded field lies in its closed value set (so the written code resolves
back to the same value) and every optional field is either `None` or truthy
(so the presence test on write matches the presence test on parse). -/
def trRoundTripSafe (tr : Transponder) : Prop :=
  dictValuesMem POLARIZATION tr.polarization = true
  ∧ dictValuesMem FEC tr.fec_inner = true
  ∧ dictValuesMem SYSTEM tr.system = true
  ∧ dictValuesMem MODULATION tr.modulation = true
  ∧ (tr.pls_mode = none ∨ pyTruthy tr.pls_mode = true)
  ∧ (tr.pls_code = none ∨ pyTruthy tr.pls_code = true)
  ∧ (tr.is_id = none ∨ pyTruthy tr.is_id = true)

/-- The integer-coercion statements of the `try` block of
`is_transponder_valid`, in source order. -/
def trIntChecks (tr : Transponder) : Except PyErr Unit := do
  let _ ← pyInt tr.frequency
  let _ ← pyInt tr.symbol_rate
  let _ ← (match tr.pls_mode with | none => .ok 0 | some s => pyIntOfString s)
  let _ ← (match tr.pls_code with | none => .ok 0 | some s => pyIntOfString s)
  let _ ← (match tr.is_id with | none => .ok 0 | some s => pyIntOfString s)
  .ok ()

/-- `is_transponder_valid`: `except TypeError: return False` — only a
`TypeError` from the coercion block is converted to `False`; any other
exception (in particular `ValueError` from `int` on a non-numeric string)
propagates.  The remaining checks are closed-set membership tests. -/
def is_transponder_valid (tr : Transponder) : Except PyErr Bool :=
  match trIntChecks tr with
  | .error .typeError => .ok false
  | .error e => .error e
  | .ok _ =>
    if !dictValuesMem POLARIZATION tr.polarization then .ok false
    else if !dictValuesMem FEC tr.fec_inner then .ok false
    else if !dictValuesMem SYSTEM tr.system then .ok false
    else if !dictValuesMem MODULATION tr.modulation then .ok false
    else .ok true

/-! ### `app/connections.py` — transfer client and sync orchestrator

The protocol sessions are modelled by the sequence of externally visible
commands they issue.  `Ev.store`/`Ev.delete`/`Ev.retr` are the FTP
`STOR`/`DELE`/`RETR` commands, `Ev.tOpen`/`Ev.tSend`/`Ev.tClose` the telnet
session and its command lines, `Ev.hSend` an HTTP device-API request path.
The directory listings (`os.listdir`, `ftp.nlst`) are supplied as an
environment; every listed local name is assumed to be a regular file. -/

/-- One externally visible protocol command. -/
inductive Ev where
  | tOpen : Ev
  | tSend (cmd : String) : Ev
  | tClose : Ev
  | hSend (cmd : String) : Ev
  | store (file : String) : Ev
  | delete (file : String) : Ev
  | retr (file : String) : Ev
  deriving Repr, DecidableEq

/-- The file acted on by a transfer event (irrelevant default otherwise). -/
def Ev.file : Ev → String
  | .store f => f
  | .delete f => f
  | .retr f => f
  | _ => ""

/-- `BQ_FILES_LIST`. -/
def BQ_FILES_LIST : List String := ["tv", "radio"]

/-- `DATA_FILES_LIST`. -/
def DATA_FILES_LIST : List String := ["lamedb", "lamedb5", "blacklist", "whitelist"]

/-- `STC_XML_FILE`. -/
def STC_XML_FILE : List String := ["satellites.xml", "terrestrial.xml", "cables.xml"]

/-- `PICONS_SUF`. -/
def PICONS_SUF : List String := [".jpg", ".png"]

/-- `DownloadType`. -/
inductive DownloadType where
  | all
  | bouquets
  | satellites
  | picons
  | epg
  deriving Repr, DecidableEq

/-- Python `s.endswith(t)`. -/
def strEndsWith (s t : String) : Bool :=
  s.data.drop (s.data.length - t.data.length) == t.data

/-- Python `s.startswith(t)`. -/
def strStartsWith (s t : String) : Bool :=
  s.data.take t.data.length == t.data

/-- Python `str.endswith` on a tuple of suffixes. -/
def endswithAny (sufs : List String) (f : String) : Bool :=
  sufs.any (fun suf => strEndsWith f suf)

/-- Python `str.startswith` on a tuple of prefixes. -/
def startswithAny (prefs : List String) (f : String) : Bool :=
  prefs.any (fun p => strStartsWith f p)

/-- Truthiness of the optional `files_filter` argument (`None` and an empty
collection are both falsy). -/
def filterTruthy : Option (List String) → Bool
  | none => false
  | some l => !l.isEmpty

/-- `picons_filter_function`: the predicate `f in files_filter if
files_filter else f.endswith(PICONS_SUF)`. -/
def picons_filter_function (files_filter : Option (List String)) (f : String) : Bool :=
  if filterTruthy files_filter then (files_filter.getD []).contains f
  else endswithAny PICONS_SUF f

/-- `UtfFTP.download_picons`: `RETR` for every listed remote file selected by
the filter predicate. -/
def download_picons (remoteFiles : List String) (files_filter : Option (List String)) :
    List Ev :=
  (remoteFiles.filter (picons_filter_function files_filter)).map Ev.retr

/-- `UtfFTP.upload_picons`: `STOR` for every listed local file selected by
the filter predicate. -/
def upload_picons (localFiles : List String) (files_filter : Option (List String)) :
    List Ev :=
  (localFiles.filter (picons_filter_function files_filter)).map Ev.store

/-- `UtfFTP.delete_picons`: `DELE` for every listed remote file selected by
the filter predicate. -/
def delete_picons (remoteFiles : List String) (files_filter : Option (List String)) :
    List Ev :=
  (remoteFiles.filter (picons_filter_function files_filter)).map Ev.delete

/-- `UtfFTP.download_files`: `RETR` for every remote name with a listed
suffix. -/
def download_files (remoteFiles : List String) (file_list : List String) : List Ev :=
  (remoteFiles.filter (endswithAny file_list)).map Ev.retr

/-- `UtfFTP.upload_files`: names in `STC_XML_FILE` are skipped, then a
suffix test selects the files to `STOR`. -/
def upload_files (localFiles : List String) (file_list : List String) : List Ev :=
  (localFiles.filter (fun f => !STC_XML_FILE.contains f && endswithAny file_list f)).map
    Ev.store

/-- `UtfFTP.upload_xml`: `send_file` for each descriptor name (a missing
local file is skipped with a log line, no FTP command). -/
def upload_xml (localFiles : List String) (xml_files : List String) : List Ev :=
  (xml_files.filter (fun f => localFiles.contains f)).map Ev.store

/-- `UtfFTP.remove_unused_bouquets`: `DELE` for every remote name starting
with one of the bouquet-file markers. -/
def remove_unused_bouquets (remoteFiles : List String) : List Ev :=
  (remoteFiles.filter
      (startswithAny ["userbouquet.", "bouquets.xml", "ubouquets.xml"])).map Ev.delete

/-- `UtfFTP.upload_bouquets`. -/
def upload_bouquets (localFiles remoteFiles : List String) (remove_unused : Bool) :
    List Ev :=
  (if remove_unused then remove_unused_bouquets remoteFiles else [])
  ++ upload_files localFiles BQ_FILES_LIST

/-- Environment of one `upload_data` run: directory listings, whether an
HTTP object was supplied, and the remaining keyword arguments. -/
structure UploadEnv where
  localFiles : List String
  remoteFiles : List String
  piconsLocal : List String
  http : Bool
  removeUnused : Bool
  filesFilter : Option (List String)
  deriving Repr

/-- Uppercase hexadecimal digit characters, index 0–15. -/
def hexDigitCharUpper (d : Nat) : Char :=
  ['0','1','2','3','4','5','6','7','8','9','A','B','C','D','E','F'].getD d '0'

/-- Two-digit uppercase hexadecimal of a byte value. -/
def twoHexUpper (n : Nat) : String :=
  String.mk [hexDigitCharUpper (n / 16 % 16), hexDigitCharUpper (n % 16)]

/-- `quote_plus` encoding of one character as used by `urlencode`
(ASCII scope): alphanumerics and `_.-~` kept, space becomes `+`,
anything else is percent-encoded. -/
def quotePlusChar (c : Char) : String :=
  if c = ' ' then "+"
  else if c.isAlphanum || c = '_' || c = '.' || c = '-' || c = '~' then String.mk [c]
  else "%" ++ twoHexUpper c.toNat

/-- `quote_plus` of a string (ASCII scope). -/
def quotePlus (s : String) : String :=
  String.join (s.data.map quotePlusChar)

/-- The info message chosen per download type at the start of an HTTP-bracketed
upload (empty for the remaining types). -/
def uploadMessage (dt : DownloadType) : String :=
  match dt with
  | .bouquets => "User bouquets will be updated!"
  | .all => "All user data will be reloaded!"
  | .satellites => "Satellites.xml file will be updated!"
  | .picons => "Picons will be updated!"
  | .epg => ""

/-- `urlencode({"text": message, "type": 2, "timeout": 5})`. -/
def uploadMessageParams (dt : DownloadType) : String :=
  "text=" ++ quotePlus (uploadMessage dt) ++ "&type=2&timeout=5"

/-- Commands issued before the FTP session of `upload_data`: either the HTTP
notification (plus standby toggle for a full sync), or the telnet session
opening and the `init 4` stop command (telnet is used whenever no HTTP
object is supplied and the subset is not picons-only). -/
def uploadPreEvents (env : UploadEnv) (dt : DownloadType) : List Ev :=
  if env.http then
    [Ev.hSend ("message?" ++ uploadMessageParams dt)]
    ++ (if dt = .all then [Ev.hSend "powerstate?newstate=0"] else [])
  else
    if dt ≠ .picons then [Ev.tOpen, Ev.tSend "init 4"] else []

/-- The FTP transfer phase of `upload_data` (the four `if download_type is`
blocks inside the `with UtfFTP(...)` statement). -/
def uploadTransferEvents (env : UploadEnv) (dt : DownloadType) : List Ev :=
  (if dt = .satellites then upload_xml env.localFiles STC_XML_FILE else [])
  ++ (if dt = .bouquets then
        upload_bouquets env.localFiles env.remoteFiles env.removeUnused
      else [])
  ++ (if dt = .all then
        upload_xml env.localFiles STC_XML_FILE
        ++ upload_bouquets env.localFiles env.remoteFiles env.removeUnused
        ++ upload_files env.localFiles DATA_FILES_LIST
      else [])
  ++ (if dt = .picons then upload_picons env.piconsLocal env.filesFilter else [])

/-- Commands issued after the transfer phase, still inside the `try` body:
`init 3` on the telnet branch (`if tn and not http`), or the HTTP reload /
wakeup commands (`elif http`). -/
def uploadPostEvents (env : UploadEnv) (dt : DownloadType) : List Ev :=
  if !env.http && dt ≠ .picons then [Ev.tSend "init 3"]
  else if env.http then
    (if dt = .bouquets then [Ev.hSend "servicelistreload?mode=2"]
     else if dt = .all then
       [Ev.hSend "servicelistreload?mode=0", Ev.hSend "powerstate?newstate=4"]
     else [])
  else []

/-- `upload_data`.  `fault = some k` models an exception raised inside the
`with UtfFTP(...)` transfer phase after `k` of its commands: the rest of the
`try` body is skipped and the exception propagates, but the `finally` clause
still closes the telnet session when one was opened. -/
def upload_data (env : UploadEnv) (dt : DownloadType) (fault : Option Nat) : List Ev :=
  uploadPreEvents env dt
  ++ (match fault with
      | none => uploadTransferEvents env dt ++ uploadPostEvents env dt
      | some k => (uploadTransferEvents env dt).take k)
  ++ (if !env.http && dt ≠ .picons then [Ev.tClose] else [])

/-- Environment of one `download_data` run: the remote listings seen in the
services directory, the XML-descriptor directory and the picon directory. -/
structure DownloadEnv where
  remoteServiceFiles : List String
  remoteXmlFiles : List String
  remotePicons : List String
  filesFilter : Option (List String)
  deriving Repr

/-- `download_data`: the issued transfer commands, the messages sent through
the callback by the orchestrator itself, and the outcome (the EPG branch
raises `OSError("Not implemented yet!")`; per-file status callbacks are
represented by the corresponding events). -/
def download_data (env : DownloadEnv) (dt : DownloadType) :
    List Ev × List String × Except String Unit :=
  let events :=
    (if dt = .all || dt = .bouquets then
       download_files env.remoteServiceFiles
         (if dt = .all then BQ_FILES_LIST ++ DATA_FILES_LIST else BQ_FILES_LIST)
     else [])
    ++ (if dt = .all || dt = .satellites then
          download_files env.remoteXmlFiles STC_XML_FILE
        else [])
    ++ (if dt = .picons then download_picons env.remotePicons env.filesFilter else [])
  if dt = .epg then (events, ["FTP OK."], .error "Not implemented yet!")
  else (events, ["FTP OK.", "Done."], .ok ())

/-- `DataLoader.run` for a download request: the progress-message channel and
the error-message channel.  An exception from `download_data` is stringified
and emitted on both channels with the `"Error: "` marker. -/
def dataLoaderRun (env : DownloadEnv) (dt : DownloadType) :
    List String × List String :=
  match download_data env dt with
  | (_, msgs, .ok _) => (msgs, [])
  | (_, msgs, .error e) => (msgs ++ ["Error: " ++ e], ["Error: " ++ e])

/-! ### `app/streams/iptv.py`, `app/ui/main.py`, `app/ui/dialogs.py` —
service references and picon identifiers -/

/-- Digit characters of a non-negative integer in the given base, most
significant first (uppercase letters for 10–15), with a structural fuel
argument; `fuel = n + 1` always suffices since `n / base < n` for `n ≥ base ≥ 2`. -/
def natDigitsAux (base : Nat) : Nat → Nat → List Char
  | 0, _ => []
  | fuel + 1, n =>
    if n < base then [hexDigitCharUpper n]
    else natDigitsAux base fuel (n / base) ++ [hexDigitCharUpper (n % base)]

/-- Python `"{:X}".format(n)` for a non-negative integer: uppercase
hexadecimal, no prefix. -/
def toHexUpper (n : Nat) : String :=
  String.mk (natDigitsAux 16 (n + 1) n)

/-- Python `str(n)` for a non-negative integer: decimal representation. -/
def pyDecRepr (n : Nat) : String :=
  String.mk (natDigitsAux 10 (n + 1) n)

/-- `urllib.parse.quote` encoding of one character (default `safe="/"`,
ASCII scope): alphanumerics and `_.-~/` kept, anything else
percent-encoded. -/
def pyQuoteChar (c : Char) : String :=
  if c.isAlphanum || c = '_' || c = '.' || c = '-' || c = '~' || c = '/' then
    String.mk [c]
  else "%" ++ twoHexUpper c.toNat

/-- `urllib.parse.quote` of a string (ASCII scope). -/
def pyQuote (s : String) : String :=
  String.join (s.data.map pyQuoteChar)

/-- `get_fav_id` (`iptv.py`): instantiates `ENIGMA2_FAV_ID_FORMAT`
`" {}:0:{}:{:X}:{:X}:{:X}:{:X}:0:0:0:{}:{}\n#DESCRIPTION: {}\n"` with the
stream type (falsy values default to `"4097"`), the service type, the four
identity parameters (defaulting to all zero), the percent-encoded URL and
the service name. -/
def get_fav_id (url service_name : String) (stream_type : Option String)
    (params : Option (Nat × Nat × Nat × Nat)) (s_type : Nat) : String :=
  let st := match stream_type with
    | some s => if s.isEmpty then "4097" else s
    | none => "4097"
  let p := params.getD (0, 0, 0, 0)
  " " ++ st ++ ":0:" ++ pyDecRepr s_type
  ++ ":" ++ toHexUpper p.1 ++ ":" ++ toHexUpper p.2.1
  ++ ":" ++ toHexUpper p.2.2.1 ++ ":" ++ toHexUpper p.2.2.2
  ++ ":0:0:0:" ++ pyQuote url ++ ":" ++ service_name
  ++ "\n#DESCRIPTION: " ++ service_name ++ "\n"

/-- Python `s.split(":")` worker over the character list, with the
accumulator of the current field (reversed). -/
def splitColonAux : List Char → List Char → List String
  | [], acc => [String.mk acc.reverse]
  | c :: cs, acc =>
    if c = ':' then String.mk acc.reverse :: splitColonAux cs []
    else splitColonAux cs (c :: acc)

/-- Python `s.split(":")`. -/
def pySplitColon (s : String) : List String :=
  splitColonAux s.data []

/-- Python `s.lstrip()`. -/
def pyLstrip (s : String) : String :=
  String.mk (s.data.dropWhile Char.isWhitespace)

/-- The picon-id derivation of `MainWindow.append_bouquet` (`main.py`) for an
IPTV bouquet entry: the first ten colon-fields of the stripped `fav_id`,
joined with underscores, with a `.png` suffix; `None` when the reference has
ten or fewer fields. -/
def bouquetPiconId (fav_id : String) : Option String :=
  let fav_id_data := pySplitColon (pyLstrip fav_id)
  if 10 < fav_id_data.length then
    some (String.intercalate "_" (fav_id_data.take 10) ++ ".png")
  else none

/-- The picon-id derivation of `IptvServiceDialog.save` (`dialogs.py`):
`"{}_0_{:X}_{}_{}_{}_{}_0_0_0.png".format(stream_type, dvb_type, *params)`. -/
def dialogPiconId (stream_type : String) (dvb_type sid tid nid nsp : Nat) : String :=
  stream_type ++ "_0_" ++ toHexUpper dvb_type
  ++ "_" ++ pyDecRepr sid ++ "_" ++ pyDecRepr tid
  ++ "_" ++ pyDecRepr nid ++ "_" ++ pyDecRepr nsp ++ "_0_0_0.png"

/-! ### Helper lemmas -/

theorem decDigitsVal_eq_toNat? (s : String) (h : strIsDigit s = true) :
    s.toNat? = some (decDigitsVal s) := by
  have hnat : s.isNat = true := by
    rw [String.isNat.eq_def, String.all_eq]
    rw [strIsDigit] at h
    simpa using h
  rw [String.toNat?.eq_def, if_pos hnat, String.foldl_eq]
  rfl

theorem foldl_hexDigits (l : List Char) (acc : Nat) :
    List.foldl (fun a c => a * 16 + hexDigitVal c) acc l
      = acc * 16 ^ l.length + Nat.ofDigits 16 ((l.map hexDigitVal).reverse) := by
  induction l generalizing acc with
  | nil => simp [Nat.ofDigits]
  | cons c t ih =>
    rw [List.foldl_cons, ih]
    simp only [List.map_cons, List.reverse_cons, Nat.ofDigits_append, List.length_cons,
      List.length_reverse, List.length_map, Nat.ofDigits_cons, Nat.ofDigits_nil]
    ring

theorem hexDigitsVal_eq_ofDigits (l : List Char) :
    hexDigitsVal (String.mk l) = Nat.ofDigits 16 ((l.map hexDigitVal).reverse) := by
  have h : hexDigitsVal (String.mk l)
      = List.foldl (fun a c => a * 16 + hexDigitVal c) 0 l := rfl
  rw [h, foldl_hexDigits]
  simp

theorem length_drop_two_pos {v : String} (h : 3 ≤ v.length) :
    (v.drop 2).data ≠ [] := by
  have hlen : (v.drop 2).data.length = v.data.length - 2 := by
    rw [String.data_drop, List.length_drop]
  have hv : v.data.length = v.length := rfl
  intro hnil
  rw [hnil] at hlen
  simp at hlen
  omega

theorem pyIntOfHexString_all_hex (s : String) (hne : s.data ≠ [])
    (hall : s.data.all isHexDigit = true) :
    pyIntOfHexString s = .ok ((hexDigitsVal s : Nat) : Int) := by
  have hmem : ∀ c ∈ s.data, isHexDigit c = true := List.all_eq_true.mp hall
  obtain ⟨c, rest, hdata⟩ : ∃ c rest, s.data = c :: rest := by
    cases hd : s.data with
    | nil => exact absurd hd hne
    | cons c rest => exact ⟨c, rest, rfl⟩
  have hc : isHexDigit c = true := hmem c (hdata ▸ List.mem_cons_self c rest)
  have hsign : s.data.head? ≠ some '-' := by
    rw [hdata]
    intro hcon
    obtain rfl : c = '-' := by simpa using hcon
    exact absurd hc (by decide)
  have hplus : s.data.head? ≠ some '+' := by
    rw [hdata]
    intro hcon
    obtain rfl : c = '+' := by simpa using hcon
    exact absurd hc (by decide)
  have hx : s.data.take 2 ≠ ['0', 'x'] := by
    intro hcon
    have hmemx : 'x' ∈ s.data := List.take_subset 2 s.data (by rw [hcon]; simp)
    exact absurd (hmem 'x' hmemx) (by decide)
  have hX : s.data.take 2 ≠ ['0', 'X'] := by
    intro hcon
    have hmemX : 'X' ∈ s.data := List.take_subset 2 s.data (by rw [hcon]; simp)
    exact absurd (hmem 'X' hmemX) (by decide)
  have hnor : ¬(s.data.head? = some '-' ∨ s.data.head? = some '+') := by
    rintro (hcon | hcon)
    · exact hsign hcon
    · exact hplus hcon
  have hnor2 : ¬(s.data.take 2 = ['0', 'x'] ∨ s.data.take 2 = ['0', 'X']) := by
    rintro (hcon | hcon)
    · exact hx hcon
    · exact hX hcon
  rw [pyIntOfHexString]
  simp only [if_neg hsign, if_neg hnor, if_neg hnor2]
  rw [if_pos (show s.data ≠ [] ∧ s.data.all isHexDigit = true from ⟨hne, hall⟩), one_mul]

theorem ev_store_injective : Function.Injective Ev.store :=
  fun _ _ h => by injection h

theorem mem_uploadTransferEvents_all (env : UploadEnv) (e : Ev)
    (he : e ∈ uploadTransferEvents env .all) :
    (∃ f, e = Ev.store f) ∨ ∃ f, e = Ev.delete f := by
  have hx : ∀ l fl, ∀ x ∈ upload_xml l fl, ∃ f, x = Ev.store f := by
    intro l fl x hmem
    simp only [upload_xml, List.mem_map] at hmem
    obtain ⟨f, _, rfl⟩ := hmem
    exact ⟨f, rfl⟩
  have hf : ∀ l fl, ∀ x ∈ upload_files l fl, ∃ f, x = Ev.store f := by
    intro l fl x hmem
    simp only [upload_files, List.mem_map] at hmem
    obtain ⟨f, _, rfl⟩ := hmem
    exact ⟨f, rfl⟩
  have hr : ∀ l, ∀ x ∈ remove_unused_bouquets l, ∃ f, x = Ev.delete f := by
    intro l x hmem
    simp only [remove_unused_bouquets, List.mem_map] at hmem
    obtain ⟨f, _, rfl⟩ := hmem
    exact ⟨f, rfl⟩
  have hb : ∀ l r ru, ∀ x ∈ upload_bouquets l r ru,
      (∃ f, x = Ev.store f) ∨ ∃ f, x = Ev.delete f := by
    intro l r ru x hmem
    rw [upload_bouquets] at hmem
    rcases List.mem_append.mp hmem with hd | hs
    · split at hd
      · exact .inr (hr _ _ hd)
      · simp at hd
    · exact .inl (hf _ _ _ hs)
  have heq : uploadTransferEvents env .all
      = upload_xml env.localFiles STC_XML_FILE
        ++ upload_bouquets env.localFiles env.remoteFiles env.removeUnused
        ++ upload_files env.localFiles DATA_FILES_LIST := by
    simp [uploadTransferEvents]
  rw [heq] at he
  rcases List.mem_append.mp he with h1 | h2
  · rcases List.mem_append.mp h1 with ha | hb2
    · exact .inl (hx _ _ _ ha)
    · exact hb _ _ _ _ hb2
  · exact .inl (hf _ _ _ h2)

/-! ### Claim theorems -/

/-- C3: `Flag.parse` returns 0 for every token of length < 3; for longer
tokens it strips the first 2 characters and parses the remainder as decimal
when it consists only of decimal digits, otherwise as hexadecimal; in
particular `parse "f:08" = 8`. -/
theorem flag_parse_spec :
    (∀ v : String, v.length < 3 → Flag.parse v = some 0)
    ∧ (∀ v : String, 3 ≤ v.length → strIsDigit (v.drop 2) = true →
        Flag.parse v = (v.drop 2).toNat?.map Int.ofNat)
    ∧ (∀ v : String, 3 ≤ v.length → strIsDigit (v.drop 2) = false →
        (v.drop 2).data.all isHexDigit = true →
        Flag.parse v
          = some (Nat.ofDigits 16 (((v.drop 2).data.map hexDigitVal).reverse) : Int))
    ∧ Flag.parse "f:08" = some 8 := by
  refine ⟨?_, ?_, ?_, by decide⟩
  · intro v h
    simp only [Flag.parse, if_pos h]
  · intro v h hd
    simp only [Flag.parse, if_neg (by omega : ¬v.length < 3), hd, if_true,
      decDigitsVal_eq_toNat? _ hd, Option.map_some]
    rfl
  · intro v h hd hhex
    have hne := length_drop_two_pos h
    have hval := pyIntOfHexString_all_hex (v.drop 2) hne hhex
    simp only [Flag.parse, if_neg (by omega : ¬v.length < 3), hd, Bool.false_eq_true,
      if_false, hval, Except.toOption]
    have hdigits : hexDigitsVal (v.drop 2)
        = Nat.ofDigits 16 (((v.drop 2).data.map hexDigitVal).reverse) :=
      hexDigitsVal_eq_ofDigits (v.drop 2).data
    rw [hdigits]
    norm_cast

/-- C3 witness: the proved characterization applied at concrete tokens. -/
theorem flag_parse_spec_witness :
    Flag.parse "ab" = some 0
    ∧ Flag.parse "f:08" = ("08" : String).toNat?.map Int.ofNat
    ∧ Flag.parse "f:1A" = some (Nat.ofDigits 16 ((("1A" : String).data.map hexDigitVal).reverse) : Int) :=
  ⟨flag_parse_spec.1 "ab" (by decide),
   flag_parse_spec.2.1 "f:08" (by decide) (by decide),
   flag_parse_spec.2.2.1 "f:1A" (by decide) (by decide) (by decide)⟩

/-- C5: the spec says `is_transponder_valid` returns `False` (without
raising) on a non-numeric frequency string, but the `except TypeError`
handler does not catch the `ValueError` that Python `int` raises on such a
string, so the call raises; the closed-set check on an out-of-range
polarization does return `False` as specified. -/
theorem is_transponder_valid_raises_valueerror :
    is_transponder_valid
        { frequency := some "abc", symbol_rate := some "27500",
          polarization := some "H", fec_inner := some "Auto",
          system := some "DVB-S", modulation := some "Auto",
          pls_mode := none, pls_code := none, is_id := none }
      = .error .valueError
    ∧ is_transponder_valid
        { frequency := none, symbol_rate := some "27500",
          polarization := some "H", fec_inner := some "Auto",
          system := some "DVB-S", modulation := some "Auto",
          pls_mode := none, pls_code := none, is_id := none }
      = .ok false
    ∧ is_transponder_valid
        { frequency := some "11034", symbol_rate := some "27500",
          polarization := some "X", fec_inner := some "Auto",
          system := some "DVB-S", modulation := some "Auto",
          pls_mode := none, pls_code := none, is_id := none }
      = .ok false :=
  ⟨rfl, rfl, rfl⟩

/-- C7: picon download, upload and delete all select their files with the
single predicate `picons_filter_function`: given the same filter input and
the same candidate names the three operations act on an identical subset;
the predicate is exact membership for a truthy (non-empty) caller-supplied
collection and the `.jpg`/`.png` suffix test otherwise. -/
theorem picons_filter_symmetry (ff : Option (List String)) (files : List String) :
    (download_picons files ff).map Ev.file = files.filter (picons_filter_function ff)
    ∧ (upload_picons files ff).map Ev.file = files.filter (picons_filter_function ff)
    ∧ (delete_picons files ff).map Ev.file = files.filter (picons_filter_function ff)
    ∧ (∀ l f, l ≠ [] → picons_filter_function (some l) f = l.contains f)
    ∧ (∀ f, picons_filter_function none f = endswithAny PICONS_SUF f) := by
  refine ⟨?_, ?_, ?_, ?_, ?_⟩
  · simp [download_picons, List.map_map, Ev.file, Function.comp_def]
  · simp [upload_picons, List.map_map, Ev.file, Function.comp_def]
  · simp [delete_picons, List.map_map, Ev.file, Function.comp_def]
  · intro l f hl
    simp [picons_filter_function, filterTruthy, List.isEmpty_iff, hl]
  · intro f
    simp [picons_filter_function, filterTruthy]

/-- C7 witness: the symmetry applied at a concrete filter and file list. -/
theorem picons_filter_symmetry_witness :
    ((download_picons ["a.png", "b.txt"] (some ["a.png"])).map Ev.file
        = ["a.png", "b.txt"].filter (picons_filter_function (some ["a.png"])))
    ∧ picons_filter_function (some ["a.png"]) "a.png" = (["a.png"].contains "a.png")
    ∧ picons_filter_function none "b.jpg" = endswithAny PICONS_SUF "b.jpg" :=
  ⟨(picons_filter_symmetry (some ["a.png"]) ["a.png", "b.txt"]).1,
   (picons_filter_symmetry (some ["a.png"]) []).2.2.2.1 ["a.png"] "a.png" (by decide),
   (picons_filter_symmetry none []).2.2.2.2 "b.jpg"⟩

/-- C10: an empty (falsy) caller-supplied filter collection makes the picon
filter fall back to the default `.jpg`/`.png` suffix match instead of
selecting nothing, for download, upload and delete alike; in particular a
delete with an empty filter set deletes every picon. -/
theorem picons_empty_filter_fallback (files : List String) :
    download_picons files (some []) = (files.filter (endswithAny PICONS_SUF)).map Ev.retr
    ∧ upload_picons files (some []) = (files.filter (endswithAny PICONS_SUF)).map Ev.store
    ∧ delete_picons files (some []) = (files.filter (endswithAny PICONS_SUF)).map Ev.delete
    ∧ delete_picons ["p1.png", "p2.jpg", "logo.png"] (some [])
        = [Ev.delete "p1.png", Ev.delete "p2.jpg", Ev.delete "logo.png"] := by
  have hfun : picons_filter_function (some []) = endswithAny PICONS_SUF := rfl
  refine ⟨?_, ?_, ?_, by decide⟩ <;>
    simp [download_picons, upload_picons, delete_picons, hfun]

/-- C9: an EPG download request raises (`OSError("Not implemented yet!")`)
after performing no transfer at all, and `DataLoader.run` wraps the raised
exception with the explicit `"Error: "` marker on the progress-message
channel (and on the error channel). -/
theorem epg_download_fails_loudly (env : DownloadEnv) :
    (download_data env .epg).2.2 = .error "Not implemented yet!"
    ∧ (download_data env .epg).1 = []
    ∧ (download_data env .epg).2.1 = ["FTP OK."]
    ∧ (dataLoaderRun env .epg).1 = ["FTP OK.", "Error: Not implemented yet!"]
    ∧ (dataLoaderRun env .epg).2 = ["Error: Not implemented yet!"] := by
  refine ⟨rfl, rfl, rfl, ?_, ?_⟩ <;> rfl

/-- C2: in a full (ALL-subset) upload with the telnet control surface (no
HTTP object), the `init 4` stop command precedes every FTP command of the
transfer phase (which consists solely of store/delete operations), the
`init 3` resume command follows all of them, and the telnet session is
closed as the final step even when the transfer phase raises after any
number of commands. -/
theorem upload_all_telnet_protocol (env : UploadEnv) (h : env.http = false) :
    (∃ mid, upload_data env .all none
        = [Ev.tOpen, Ev.tSend "init 4"] ++ mid ++ [Ev.tSend "init 3", Ev.tClose]
      ∧ ∀ e ∈ mid, (∃ f, e = Ev.store f) ∨ ∃ f, e = Ev.delete f)
    ∧ ∀ k, ∃ l, upload_data env .all (some k) = l ++ [Ev.tClose] := by
  constructor
  · refine ⟨uploadTransferEvents env .all, ?_, mem_uploadTransferEvents_all env⟩
    simp [upload_data, uploadPreEvents, uploadPostEvents, h]
  · intro k
    refine ⟨[Ev.tOpen, Ev.tSend "init 4"] ++ (uploadTransferEvents env .all).take k, ?_⟩
    simp [upload_data, uploadPreEvents, h]

/-- C2 witness: the protocol bracketing at a concrete environment. -/
theorem upload_all_telnet_protocol_witness :
    (∃ mid, upload_data
        { localFiles := ["a.tv", "lamedb"], remoteFiles := ["userbouquet.x.tv"],
          piconsLocal := [], http := false, removeUnused := true,
          filesFilter := none } .all none
        = [Ev.tOpen, Ev.tSend "init 4"] ++ mid ++ [Ev.tSend "init 3", Ev.tClose]
      ∧ ∀ e ∈ mid, (∃ f, e = Ev.store f) ∨ ∃ f, e = Ev.delete f)
    ∧ ∀ k, ∃ l, upload_data
        { localFiles := ["a.tv", "lamedb"], remoteFiles := ["userbouquet.x.tv"],
          piconsLocal := [], http := false, removeUnused := true,
          filesFilter := none } .all (some k) = l ++ [Ev.tClose] :=
  upload_all_telnet_protocol
    { localFiles := ["a.tv", "lamedb"], remoteFiles := ["userbouquet.x.tv"],
      piconsLocal := [], http := false, removeUnused := true,
      filesFilter := none } rfl

theorem count_store_map_delete (f : String) (l : List String) :
    (l.map Ev.delete).count (Ev.store f) = 0 := by
  rw [List.count_eq_zero]
  simp

theorem count_store_map_store (f : String) (l : List String) :
    (l.map Ev.store).count (Ev.store f) = l.count f :=
  List.count_map_of_injective l Ev.store ev_store_injective f

theorem count_hsend_map_store (c : String) (l : List String) :
    (l.map Ev.store).count (Ev.hSend c) = 0 := by
  rw [List.count_eq_zero]
  simp

theorem count_hsend_map_delete (c : String) (l : List String) :
    (l.map Ev.delete).count (Ev.hSend c) = 0 := by
  rw [List.count_eq_zero]
  simp

theorem count_store_upload_bouquets (env : UploadEnv) (f : String) :
    (upload_data env .bouquets none).count (Ev.store f)
      = (env.localFiles.filter
          (fun g => !STC_XML_FILE.contains g && endswithAny BQ_FILES_LIST g)).count f := by
  cases hh : env.http <;> cases hru : env.removeUnused <;>
    simp [upload_data, uploadTransferEvents, upload_bouquets, upload_files,
      remove_unused_bouquets, uploadPreEvents, uploadPostEvents, hh, hru,
      List.count_append, List.count_cons, count_store_map_store,
      count_store_map_delete, beq_iff_eq]

theorem store_mem_upload_bouquets (env : UploadEnv) (f : String) :
    Ev.store f ∈ upload_data env .bouquets none ↔
      f ∈ env.localFiles
        ∧ (!STC_XML_FILE.contains f && endswithAny BQ_FILES_LIST f) = true := by
  cases hh : env.http <;> cases hru : env.removeUnused <;>
    simp [upload_data, uploadTransferEvents, upload_bouquets, upload_files,
      remove_unused_bouquets, uploadPreEvents, uploadPostEvents, hh, hru,
      List.mem_filter, and_assoc] <;>
    exact ⟨fun ⟨a, ha, h1, h2, haf⟩ => haf ▸ ⟨ha, h1, h2⟩,
      fun ⟨ha, h1, h2⟩ => ⟨f, ha, h1, h2, rfl⟩⟩

theorem upload_bouquets_http_trace (env : UploadEnv) (hh : env.http = true) :
    upload_data env .bouquets none
      = (Ev.hSend ("message?" ++ uploadMessageParams .bouquets)
          :: ((if env.removeUnused = true then remove_unused_bouquets env.remoteFiles
               else [])
              ++ (env.localFiles.filter
                   (fun g => !STC_XML_FILE.contains g
                     && endswithAny BQ_FILES_LIST g)).map Ev.store))
        ++ [Ev.hSend "servicelistreload?mode=2"] := by
  cases hru : env.removeUnused <;>
    simp [upload_data, uploadPreEvents, uploadPostEvents, uploadTransferEvents,
      upload_bouquets, upload_files, hh, hru]

/-- C6: a bouquets-only upload stores no XML descriptor file, stores each
local bouquet file (`tv`/`radio` suffix) exactly once and nothing else, and
with the HTTP control surface configured issues exactly one
`servicelistreload?mode=2` command, as the last command after all transfers. -/
theorem upload_bouquets_only_trace (env : UploadEnv) (hnd : env.localFiles.Nodup) :
    (∀ x ∈ STC_XML_FILE, (upload_data env .bouquets none).count (Ev.store x) = 0)
    ∧ (∀ f ∈ env.localFiles, endswithAny BQ_FILES_LIST f = true →
        (upload_data env .bouquets none).count (Ev.store f) = 1)
    ∧ (∀ f, Ev.store f ∈ upload_data env .bouquets none →
        f ∈ env.localFiles ∧ endswithAny BQ_FILES_LIST f = true ∧ f ∉ STC_XML_FILE)
    ∧ (env.http = true →
        (upload_data env .bouquets none).count (Ev.hSend "servicelistreload?mode=2") = 1
        ∧ ∃ l, upload_data env .bouquets none
            = l ++ [Ev.hSend "servicelistreload?mode=2"]) := by
  refine ⟨?_, ?_, ?_, ?_⟩
  · intro x hx
    rw [count_store_upload_bouquets, List.count_eq_zero]
    intro hmem
    rw [List.mem_filter] at hmem
    have hp := hmem.2
    rw [Bool.and_eq_true, Bool.not_eq_true'] at hp
    have hcont : STC_XML_FILE.contains x = true := List.elem_iff.mpr hx
    rw [hp.1] at hcont
    exact Bool.false_ne_true hcont
  · intro f hf hsuf
    have hnc : STC_XML_FILE.contains f = false := by
      cases hc : STC_XML_FILE.contains f
      · rfl
      · exfalso
        have hmem : f ∈ STC_XML_FILE := List.elem_iff.mp hc
        rcases (by simpa [STC_XML_FILE] using hmem :
            f = "satellites.xml" ∨ f = "terrestrial.xml" ∨ f = "cables.xml") with
          rfl | rfl | rfl <;> exact absurd hsuf (by decide)
    rw [count_store_upload_bouquets]
    exact List.count_eq_one_of_mem (hnd.filter _)
      (List.mem_filter.mpr ⟨hf, by rw [hnc]; simpa using hsuf⟩)
  · intro f hmem
    obtain ⟨h1, h2⟩ := (store_mem_upload_bouquets env f).mp hmem
    rw [Bool.and_eq_true, Bool.not_eq_true'] at h2
    refine ⟨h1, h2.2, ?_⟩
    intro hc
    have hcont : STC_XML_FILE.contains f = true := List.elem_iff.mpr hc
    rw [h2.1] at hcont
    exact Bool.false_ne_true hcont
  · intro hh
    constructor
    · rw [upload_bouquets_http_trace env hh]
      have hne : (Ev.hSend "servicelistreload?mode=2"
          == Ev.hSend ("message?" ++ uploadMessageParams .bouquets)) = false := by decide
      cases hru : env.removeUnused <;>
        simp [List.count_append, List.count_cons, count_hsend_map_store,
          count_hsend_map_delete, remove_unused_bouquets, hne] <;>
        decide
    · exact ⟨_, upload_bouquets_http_trace env hh⟩

/-- C6 witness: the bouquets-only trace properties at a concrete
environment with the HTTP control surface configured. -/
theorem upload_bouquets_only_trace_witness :
    ((upload_data
        { localFiles := ["a.tv", "b.radio", "satellites.xml"], remoteFiles := [],
          piconsLocal := [], http := true, removeUnused := false,
          filesFilter := none } .bouquets none).count (Ev.store "satellites.xml") = 0)
    ∧ ((upload_data
        { localFiles := ["a.tv", "b.radio", "satellites.xml"], remoteFiles := [],
          piconsLocal := [], http := true, removeUnused := false,
          filesFilter := none } .bouquets none).count (Ev.store "a.tv") = 1)
    ∧ ((upload_data
        { localFiles := ["a.tv", "b.radio", "satellites.xml"], remoteFiles := [],
          piconsLocal := [], http := true, removeUnused := false,
          filesFilter := none } .bouquets none).count
          (Ev.hSend "servicelistreload?mode=2") = 1) := by
  have h := upload_bouquets_only_trace
    { localFiles := ["a.tv", "b.radio", "satellites.xml"], remoteFiles := [],
      piconsLocal := [], http := true, removeUnused := false,
      filesFilter := none } (by decide)
  exact ⟨h.1 "satellites.xml" (by decide),
    h.2.1 "a.tv" (by decide) (by decide),
    (h.2.2.2 rfl).1⟩

theorem bind_ok_py {α β : Type} (x : α) (f : α → Except PyErr β) :
    (Bind.bind (Except.ok x : Except PyErr α) f : Except PyErr β) = f x := rfl

theorem dictGet_head (a : String × String) (rest : List (String × String)) :
    dictGet (a :: rest) (some a.1) = .ok a.2 := by
  have hpa : (fun p : String × String => decide (p.1 = a.1)) a = true := by simp
  rw [dictGet,
    @List.find?_cons_of_pos _ (fun p : String × String => decide (p.1 = a.1)) a rest hpa]

theorem dictGet_cons_ne (a : String × String) (rest : List (String × String))
    (k : String) (h : ¬(a.1 = k)) :
    dictGet (a :: rest) (some k) = dictGet rest (some k) := by
  have hpa : ¬((fun p : String × String => decide (p.1 = k)) a = true) := by simp [h]
  rw [dictGet, dictGet,
    @List.find?_cons_of_neg _ (fun p : String × String => decide (p.1 = k)) a rest hpa]

theorem get_key_isSome (T : List (String × String)) (v : String)
    (hv : T.any (fun p => p.2 = v) = true) :
    ∃ k, get_key_by_value T (some v) = some k := by
  rcases List.any_eq_true.mp hv with ⟨p, hp, hpv⟩
  have hpv' : p.2 = v := of_decide_eq_true hpv
  have hsome : (T.find? (fun q => some q.2 = some v)).isSome := by
    rw [List.find?_isSome]
    exact ⟨p, hp, decide_eq_true (by rw [hpv'])⟩
  obtain ⟨q, hq⟩ := Option.isSome_iff_exists.mp hsome
  exact ⟨q.1, by rw [get_key_by_value, hq, Option.map_some']⟩

theorem table_roundtrip (T : List (String × String))
    (hk : (T.map Prod.fst).Nodup) (v : String)
    (hv : T.any (fun p => p.2 = v) = true) :
    dictGet T (get_key_by_value T (some v)) = .ok v := by
  induction T with
  | nil => simp at hv
  | cons a rest ih =>
    by_cases hav : a.2 = v
    · have hpa : (fun p : String × String => decide (some p.2 = some v)) a = true := by
        simp [hav]
      have hget : get_key_by_value (a :: rest) (some v) = some a.1 := by
        rw [get_key_by_value,
          @List.find?_cons_of_pos _ (fun p : String × String => decide (some p.2 = some v)) a rest hpa,
          Option.map_some']
      rw [hget, dictGet_head]
      rw [hav]
    · have hpa : ¬((fun p : String × String => decide (some p.2 = some v)) a = true) := by
        simp [hav]
      have hget : get_key_by_value (a :: rest) (some v)
          = get_key_by_value rest (some v) := by
        rw [get_key_by_value, get_key_by_value,
          @List.find?_cons_of_neg _ (fun p : String × String => decide (some p.2 = some v)) a rest hpa]
      have hvrest : rest.any (fun p => p.2 = v) = true := by
        rcases List.any_eq_true.mp hv with ⟨p, hp, hpv⟩
        have hpv' : p.2 = v := of_decide_eq_true hpv
        rcases List.mem_cons.mp hp with rfl | hpr
        · exact absurd hpv' hav
        · exact List.any_eq_true.mpr ⟨p, hpr, decide_eq_true hpv'⟩
      obtain ⟨k, hkk⟩ := get_key_isSome rest v hvrest
      rw [List.map_cons] at hk
      have hnodup := List.nodup_cons.mp hk
      have hkmem : k ∈ rest.map Prod.fst := by
        rw [get_key_by_value] at hkk
        obtain ⟨q, hq, hq1⟩ := Option.map_eq_some'.mp hkk
        exact hq1 ▸ List.mem_map_of_mem Prod.fst (List.mem_of_find?_eq_some hq)
      have hkne : ¬(a.1 = k) := fun heq => hnodup.1 (heq ▸ hkmem)
      rw [hget, hkk, dictGet_cons_ne _ _ _ hkne, ← hkk]
      exact ih hnodup.2 hvrest

theorem get_key_ne_empty (T : List (String × String))
    (hne : T.all (fun p => !p.1.isEmpty) = true) (v : PyStr) (k : String)
    (h : get_key_by_value T v = some k) : k.isEmpty = false := by
  rw [get_key_by_value] at h
  obtain ⟨q, hq, hq1⟩ := Option.map_eq_some'.mp h
  have hall := List.all_eq_true.mp hne q (List.mem_of_find?_eq_some hq)
  rw [hq1] at hall
  rwa [Bool.not_eq_true'] at hall

theorem pyOrZero_of_ne_empty {k : String} (h : k.isEmpty = false) :
    pyOrZero (some k) = k := by
  simp [pyOrZero, h]

theorem wattr_frequency (tr : Transponder) :
    attrValue (writeTrElem tr).attrs "frequency" = .ok tr.frequency := rfl

theorem wattr_symbol_rate (tr : Transponder) :
    attrValue (writeTrElem tr).attrs "symbol_rate" = .ok tr.symbol_rate := rfl

theorem wattr_polarization (tr : Transponder) :
    attrValue (writeTrElem tr).attrs "polarization"
      = .ok (get_key_by_value POLARIZATION tr.polarization) := rfl

theorem wattr_fec (tr : Transponder) :
    attrValue (writeTrElem tr).attrs "fec_inner"
      = .ok (some (pyOrZero (get_key_by_value FEC tr.fec_inner))) := rfl

theorem wattr_system (tr : Transponder) :
    attrValue (writeTrElem tr).attrs "system"
      = .ok (some (pyOrZero (get_key_by_value SYSTEM tr.system))) := rfl

theorem wattr_modulation (tr : Transponder) :
    attrValue (writeTrElem tr).attrs "modulation"
      = .ok (some (pyOrZero (get_key_by_value MODULATION tr.modulation))) := rfl

theorem woptattr_pls_mode (tr : Transponder)
    (h : tr.pls_mode = none ∨ pyTruthy tr.pls_mode = true) :
    optAttr (writeTrElem tr).attrs "pls_mode" = tr.pls_mode := by
  rcases h with h0 | hT
  · cases hb : pyTruthy tr.pls_code <;> cases hc : pyTruthy tr.is_id <;>
      · simp only [writeTrElem, optAttr, h0, hb, hc]
        rfl
  · simp only [writeTrElem, optAttr, hT]
    rfl

theorem woptattr_pls_code (tr : Transponder)
    (h : tr.pls_code = none ∨ pyTruthy tr.pls_code = true) :
    optAttr (writeTrElem tr).attrs "pls_code" = tr.pls_code := by
  rcases h with h0 | hT
  · cases ha : pyTruthy tr.pls_mode <;> cases hc : pyTruthy tr.is_id <;>
      · simp only [writeTrElem, optAttr, h0, ha, hc]
        rfl
  · cases ha : pyTruthy tr.pls_mode <;>
      · simp only [writeTrElem, optAttr, ha, hT]
        rfl

theorem woptattr_is_id (tr : Transponder)
    (h : tr.is_id = none ∨ pyTruthy tr.is_id = true) :
    optAttr (writeTrElem tr).attrs "is_id" = tr.is_id := by
  rcases h with h0 | hT
  · cases ha : pyTruthy tr.pls_mode <;> cases hb : pyTruthy tr.pls_code <;>
      · simp only [writeTrElem, optAttr, h0, ha, hb]
        rfl
  · cases ha : pyTruthy tr.pls_mode <;> cases hb : pyTruthy tr.pls_code <;>
      · simp only [writeTrElem, optAttr, ha, hb, hT]
        rfl

theorem parseTr_writeTr (tr : Transponder)
    (hpol : dictValuesMem POLARIZATION tr.polarization = true)
    (hfec : dictValuesMem FEC tr.fec_inner = true)
    (hsys : dictValuesMem SYSTEM tr.system = true)
    (hmod : dictValuesMem MODULATION tr.modulation = true)
    (hpm : tr.pls_mode = none ∨ pyTruthy tr.pls_mode = true)
    (hpc : tr.pls_code = none ∨ pyTruthy tr.pls_code = true)
    (hii : tr.is_id = none ∨ pyTruthy tr.is_id = true) :
    parseTransponder1 (writeTrElem tr) = .ok tr := by
  obtain ⟨pv, hpv⟩ : ∃ v, tr.polarization = some v := by
    cases h : tr.polarization
    · rw [h] at hpol
      simp [dictValuesMem] at hpol
    · exact ⟨_, rfl⟩
  obtain ⟨fv, hfv⟩ : ∃ v, tr.fec_inner = some v := by
    cases h : tr.fec_inner
    · rw [h] at hfec
      simp [dictValuesMem] at hfec
    · exact ⟨_, rfl⟩
  obtain ⟨sv, hsv⟩ : ∃ v, tr.system = some v := by
    cases h : tr.system
    · rw [h] at hsys
      simp [dictValuesMem] at hsys
    · exact ⟨_, rfl⟩
  obtain ⟨mv, hmv⟩ : ∃ v, tr.modulation = some v := by
    cases h : tr.modulation
    · rw [h] at hmod
      simp [dictValuesMem] at hmod
    · exact ⟨_, rfl⟩
  rw [hpv] at hpol
  rw [hfv] at hfec
  rw [hsv] at hsys
  rw [hmv] at hmod
  have hPol : dictGet POLARIZATION (get_key_by_value POLARIZATION tr.polarization)
      = .ok pv := by
    rw [hpv]
    exact table_roundtrip POLARIZATION (by decide) pv hpol
  obtain ⟨fk, hfk⟩ := get_key_isSome FEC fv hfec
  have hFec : dictGet FEC (some (pyOrZero (get_key_by_value FEC tr.fec_inner)))
      = .ok fv := by
    rw [hfv, hfk, pyOrZero_of_ne_empty (get_key_ne_empty FEC (by decide) _ _ hfk),
      ← hfk]
    exact table_roundtrip FEC (by decide) fv hfec
  obtain ⟨sk, hsk⟩ := get_key_isSome SYSTEM sv hsys
  have hSys : dictGet SYSTEM (some (pyOrZero (get_key_by_value SYSTEM tr.system)))
      = .ok sv := by
    rw [hsv, hsk, pyOrZero_of_ne_empty (get_key_ne_empty SYSTEM (by decide) _ _ hsk),
      ← hsk]
    exact table_roundtrip SYSTEM (by decide) sv hsys
  obtain ⟨mk', hmk⟩ := get_key_isSome MODULATION mv hmod
  have hMod : dictGet MODULATION
      (some (pyOrZero (get_key_by_value MODULATION tr.modulation))) = .ok mv := by
    rw [hmv, hmk, pyOrZero_of_ne_empty (get_key_ne_empty MODULATION (by decide) _ _ hmk),
      ← hmk]
    exact table_roundtrip MODULATION (by decide) mv hmod
  simp only [parseTransponder1, wattr_frequency, wattr_symbol_rate, wattr_polarization,
    wattr_fec, wattr_system, wattr_modulation, bind_ok_py, hPol, hFec, hSys, hMod,
    woptattr_pls_mode tr hpm, woptattr_pls_code tr hpc, woptattr_is_id tr hii]
  rw [← hpv, ← hfv, ← hsv, ← hmv]

theorem parse_transponders_write (trs : List Transponder)
    (h : ∀ tr ∈ trs, trRoundTripSafe tr) :
    parse_transponders (trs.map writeTrElem) = trs := by
  induction trs with
  | nil => rfl
  | cons t ts ih =>
    obtain ⟨h1, h2, h3, h4, h5, h6, h7⟩ := h t (List.mem_cons_self t ts)
    have hstep : (if (writeTrElem t).attrs.isEmpty then none
        else (parseTransponder1 (writeTrElem t)).toOption) = some t := by
      rw [parseTr_writeTr t h1 h2 h3 h4 h5 h6 h7]
      rfl
    rw [List.map_cons, parse_transponders]
    simp only [List.filterMap_cons]
    rw [hstep]
    show t :: parse_transponders (List.map writeTrElem ts) = t :: ts
    rw [ih (fun tr htr => h tr (List.mem_cons_of_mem t htr))]

theorem parse_sat_write (sat : Satellite)
    (h : ∀ tr ∈ sat.transponders, trRoundTripSafe tr) :
    parse_sat (writeSatElem sat) = .ok sat := by
  have hname : attrValue [("name", sat.name), ("flags", sat.flags),
      ("position", sat.position)] "name" = .ok sat.name := rfl
  have hflags : attrValue [("name", sat.name), ("flags", sat.flags),
      ("position", sat.position)] "flags" = .ok sat.flags := rfl
  have hpos : attrValue [("name", sat.name), ("flags", sat.flags),
      ("position", sat.position)] "position" = .ok sat.position := rfl
  simp only [parse_sat, writeSatElem, hname, hflags, hpos, bind_ok_py]
  rw [parse_transponders_write sat.transponders h]

theorem mapM_parse_sat_write (sats : List Satellite)
    (h : ∀ sat ∈ sats, ∀ tr ∈ sat.transponders, trRoundTripSafe tr) :
    (sats.map writeSatElem).mapM parse_sat = .ok sats := by
  induction sats with
  | nil => rfl
  | cons s ss ih =>
    rw [List.map_cons, List.mapM_cons, parse_sat_write s (h s (List.mem_cons_self s ss)),
      ih (fun sat hs tr htr => h sat (List.mem_cons_of_mem s hs) tr htr)]
    rfl

theorem get_satellites_write (sats : List Satellite)
    (h : ∀ sat ∈ sats, ∀ tr ∈ sat.transponders, trRoundTripSafe tr) :
    get_satellites (write_satellites sats) = .ok sats := by
  rw [get_satellites, write_satellites]
  have hfil : (List.map writeSatElem sats).filter (fun el => !el.attrs.isEmpty)
      = List.map writeSatElem sats := by
    apply List.filter_eq_self.mpr
    intro el hel
    obtain ⟨sat, _, rfl⟩ := List.mem_map.mp hel
    rfl
  rw [hfil]
  exact mapM_parse_sat_write sats h

/-- C1 counterexample: a well-formed satellites document which `get_satellites`
parses fine but whose `write_satellites` output is not byte-identical to it
(the writer always emits its own fixed comment block, which this file lacks),
so `write(parse(file)) == file` does not hold for every well-formed file. -/
theorem satxml_roundtrip_not_universal :
    get_satellites
        { comment := none,
          sats := [{ attrs := [("name", some "A"), ("flags", some "1"),
                               ("position", some "130")], transponders := [] }] }
      = .ok [{ name := some "A", flags := some "1", position := some "130",
               transponders := [] }]
    ∧ renderDoc (write_satellites
        [{ name := some "A", flags := some "1", position := some "130",
           transponders := [] }])
      ≠ renderDoc
        { comment := none,
          sats := [{ attrs := [("name", some "A"), ("flags", some "1"),
                               ("position", some "130")], transponders := [] }] } :=
  ⟨rfl, by decide⟩

/-- C1 amended: for every file in the image of the writer — i.e. produced by
`write_satellites` from satellites whose transponders are round-trip safe —
parsing and writing back reproduces the document byte-for-byte, including
the preserved comment block: `get_satellites` recovers the satellite list
exactly, so re-serializing renders the identical byte string. -/
theorem satxml_writer_image_roundtrip (sats : List Satellite)
    (h : ∀ sat ∈ sats, ∀ tr ∈ sat.transponders, trRoundTripSafe tr) :
    get_satellites (write_satellites sats) = .ok sats
    ∧ (get_satellites (write_satellites sats)).map
        (fun parsed => renderDoc (write_satellites parsed))
      = .ok (renderDoc (write_satellites sats)) := by
  have h1 := get_satellites_write sats h
  exact ⟨h1, by rw [h1]; rfl⟩

/-- C1 witness: the writer-image round trip at a concrete satellite list. -/
theorem satxml_writer_image_roundtrip_witness :
    get_satellites (write_satellites
        [{ name := some "Astra", flags := some "1", position := some "192",
           transponders :=
             [{ frequency := some "11034000", symbol_rate := some "27500000",
                polarization := some "V", fec_inner := some "3/4",
                system := some "DVB-S2", modulation := some "8PSK",
                pls_mode := some "1", pls_code := none, is_id := none }] }])
      = .ok
        [{ name := some "Astra", flags := some "1", position := some "192",
           transponders :=
             [{ frequency := some "11034000", symbol_rate := some "27500000",
                polarization := some "V", fec_inner := some "3/4",
                system := some "DVB-S2", modulation := some "8PSK",
                pls_mode := some "1", pls_code := none, is_id := none }] }] :=
  (satxml_writer_image_roundtrip
    [{ name := some "Astra", flags := some "1", position := some "192",
       transponders :=
         [{ frequency := some "11034000", symbol_rate := some "27500000",
            polarization := some "V", fec_inner := some "3/4",
            system := some "DVB-S2", modulation := some "8PSK",
            pls_mode := some "1", pls_code := none, is_id := none }] }]
    (by
      intro sat hs tr htr
      rw [List.mem_singleton] at hs
      subst hs
      rw [List.mem_singleton] at htr
      subst htr
      exact ⟨rfl, rfl, rfl, rfl, Or.inr rfl, Or.inl rfl, Or.inl rfl⟩)).1

/-- C4 counterexample: for a transponder whose polarization is not in the
`POLARIZATION` value set, `write_satellites` does not substitute the default
code `"0"`: the `polarization` attribute (unlike `fec_inner`, `system` and
`modulation`, which have the `or "0"` fallback) is set to the raw
`get_key_by_value` result, Python `None`, which minidom serializes as an
empty attribute value. -/
theorem write_polarization_no_default :
    attrValue (writeTrElem
        { frequency := some "11034", symbol_rate := some "27500",
          polarization := some "X", fec_inner := some "1/2",
          system := some "DVB-S", modulation := some "QPSK",
          pls_mode := none, pls_code := none, is_id := none }).attrs "polarization"
      = .ok none
    ∧ (none : PyStr) ≠ some "0"
    ∧ renderAttr ("polarization", (none : PyStr)) = " polarization=\"\"" :=
  ⟨rfl, by decide, rfl⟩

/-- C4 amended: on write, an unresolvable `fec_inner`, `system` or
`modulation` value is substituted by the default code `"0"`; an unresolvable
`polarization` is stored as a `None`-valued attribute and serialized as an
empty attribute value; in all cases the write completes without raising. -/
theorem write_enum_default_behavior (tr : Transponder)
    (hfec : get_key_by_value FEC tr.fec_inner = none)
    (hsys : get_key_by_value SYSTEM tr.system = none)
    (hmod : get_key_by_value MODULATION tr.modulation = none)
    (hpol : get_key_by_value POLARIZATION tr.polarization = none) :
    attrValue (writeTrElem tr).attrs "fec_inner" = .ok (some "0")
    ∧ attrValue (writeTrElem tr).attrs "system" = .ok (some "0")
    ∧ attrValue (writeTrElem tr).attrs "modulation" = .ok (some "0")
    ∧ attrValue (writeTrElem tr).attrs "polarization" = .ok none
    ∧ renderAttr ("polarization", (none : PyStr)) = " polarization=\"\"" := by
  refine ⟨?_, ?_, ?_, ?_, rfl⟩
  · rw [wattr_fec, hfec]
    rfl
  · rw [wattr_system, hsys]
    rfl
  · rw [wattr_modulation, hmod]
    rfl
  · rw [wattr_polarization, hpol]

/-- C4 witness: the write fallback behaviour at a concrete transponder with
every enum field unresolvable. -/
theorem write_enum_default_behavior_witness :
    attrValue (writeTrElem
        { frequency := some "11034", symbol_rate := some "27500",
          polarization := some "X", fec_inner := some "X",
          system := some "X", modulation := some "X",
          pls_mode := none, pls_code := none, is_id := none }).attrs "fec_inner"
      = .ok (some "0")
    ∧ attrValue (writeTrElem
        { frequency := some "11034", symbol_rate := some "27500",
          polarization := some "X", fec_inner := some "X",
          system := some "X", modulation := some "X",
          pls_mode := none, pls_code := none, is_id := none }).attrs "polarization"
      = .ok none := by
  have h := write_enum_default_behavior
    { frequency := some "11034", symbol_rate := some "27500",
      polarization := some "X", fec_inner := some "X",
      system := some "X", modulation := some "X",
      pls_mode := none, pls_code := none, is_id := none }
    rfl rfl rfl rfl
  exact ⟨h.1, h.2.2.2.1⟩

theorem splitColonAux_ne_nil (l : List Char) (acc : List Char) :
    splitColonAux l acc ≠ [] := by
  induction l generalizing acc with
  | nil => simp [splitColonAux]
  | cons c cs ih =>
    rw [splitColonAux]
    split
    · simp
    · exact ih _

theorem splitColonAux_append_colon (a b : List Char) (acc : List Char) :
    ':' ∉ a →
      splitColonAux (a ++ ':' :: b) acc
        = String.mk (acc.reverse ++ a) :: splitColonAux b [] := by
  induction a generalizing acc with
  | nil =>
    intro _
    rw [List.nil_append, splitColonAux, if_pos rfl]
    simp
  | cons c cs ih =>
    intro h
    have hc : ¬(c = ':') := fun hh => h (hh ▸ List.mem_cons_self c cs)
    rw [List.cons_append, splitColonAux, if_neg hc,
      ih (c :: acc) (fun hm => h (List.mem_cons_of_mem c hm))]
    simp

theorem pySplitColon_append (a b : String) (h : ∀ c ∈ a.data, c ≠ ':') :
    pySplitColon (a ++ (":" ++ b)) = a :: pySplitColon b := by
  rw [pySplitColon, pySplitColon]
  have hdata : (a ++ (":" ++ b)).data = a.data ++ ':' :: b.data := by
    rw [String.data_append, String.data_append]
    rfl
  rw [hdata, splitColonAux_append_colon a.data b.data [] (fun hm => (h ':' hm) rfl)]
  rfl

theorem pyLstrip_space_append (st R : String) (hne : st.data ≠ [])
    (hh : ∀ c ∈ st.data, ¬(c.isWhitespace = true)) :
    pyLstrip (" " ++ (st ++ R)) = st ++ R := by
  rw [pyLstrip]
  have hdata : (" " ++ (st ++ R)).data = ' ' :: (st.data ++ R.data) := by
    rw [String.data_append, String.data_append]
    rfl
  rw [hdata]
  obtain ⟨c, cs, hcs⟩ : ∃ c cs, st.data = c :: cs := by
    cases hd : st.data with
    | nil => exact absurd hd hne
    | cons c cs => exact ⟨c, cs, rfl⟩
  rw [List.dropWhile_cons, if_pos (by decide : (' '.isWhitespace) = true), hcs,
    List.cons_append, List.dropWhile_cons,
    if_neg (hh c (hcs ▸ List.mem_cons_self c cs))]
  exact String.ext (by rw [String.data_append, hcs]; rfl)

theorem hexDigitCharUpper_ne_colon (d : Nat) : hexDigitCharUpper d ≠ ':' := by
  rcases Nat.lt_or_ge d 16 with h | h
  · interval_cases d <;> decide
  · rw [hexDigitCharUpper, List.getD_eq_default]
    · decide
    · simpa using h

theorem natDigitsAux_ne_colon (base : Nat) :
    ∀ (fuel n : Nat), ∀ c ∈ natDigitsAux base fuel n, c ≠ ':' := by
  intro fuel
  induction fuel with
  | zero =>
    intro n c hc
    simp [natDigitsAux] at hc
  | succ f ih =>
    intro n c hc
    rw [natDigitsAux] at hc
    split at hc
    · rw [List.mem_singleton] at hc
      exact hc ▸ hexDigitCharUpper_ne_colon n
    · rcases List.mem_append.mp hc with hl | hr
      · exact ih (n / base) c hl
      · rw [List.mem_singleton] at hr
        exact hr ▸ hexDigitCharUpper_ne_colon (n % base)

theorem pyDecRepr_ne_colon (n : Nat) : ∀ c ∈ (pyDecRepr n).data, c ≠ ':' :=
  natDigitsAux_ne_colon 10 (n + 1) n

theorem toHexUpper_ne_colon (n : Nat) : ∀ c ∈ (toHexUpper n).data, c ≠ ':' :=
  natDigitsAux_ne_colon 16 (n + 1) n

theorem bouquetPiconId_get_fav_id (st : String) (s_type sid tid nid nsp : Nat)
    (url nm : String) (hst : st ≠ "")
    (hstc : ∀ c ∈ st.data, ¬(c.isWhitespace = true) ∧ c ≠ ':') :
    bouquetPiconId (get_fav_id url nm (some st) (some (sid, tid, nid, nsp)) s_type)
      = some (String.intercalate "_"
          [st, "0", pyDecRepr s_type, toHexUpper sid, toHexUpper tid,
           toHexUpper nid, toHexUpper nsp, "0", "0", "0"] ++ ".png") := by
  have hie : st.isEmpty = false := by
    cases hi : st.isEmpty
    · rfl
    · exact absurd ((String.isEmpty_iff st).mp hi) hst
  have hstne : st.data ≠ [] := fun hd => hst (String.ext hd)
  have hcolon : ∀ c ∈ st.data, c ≠ ':' := fun c hc => (hstc c hc).2
  have hws : ∀ c ∈ st.data, ¬(c.isWhitespace = true) := fun c hc => (hstc c hc).1
  have hfav : get_fav_id url nm (some st) (some (sid, tid, nid, nsp)) s_type
      = " " ++ (st ++ (":0:" ++ (pyDecRepr s_type ++ (":" ++ (toHexUpper sid ++ (":" ++ (toHexUpper tid ++ (":" ++ (toHexUpper nid ++ (":" ++ (toHexUpper nsp ++ (":0:0:0:" ++ (pyQuote url ++ (":" ++ (nm ++ ("\n#DESCRIPTION: " ++ (nm ++ ("\n")))))))))))))))))) := by
    simp only [get_fav_id, hie, Bool.false_eq_true, if_false, Option.getD_some]
    simp [String.append_assoc]
  have hsplit : pySplitColon (st ++ (":0:" ++ (pyDecRepr s_type ++ (":" ++ (toHexUpper sid ++ (":" ++ (toHexUpper tid ++ (":" ++ (toHexUpper nid ++ (":" ++ (toHexUpper nsp ++ (":0:0:0:" ++ (pyQuote url ++ (":" ++ (nm ++ ("\n#DESCRIPTION: " ++ (nm ++ ("\n"))))))))))))))))))
      = st :: "0" :: pyDecRepr s_type :: toHexUpper sid :: toHexUpper tid
        :: toHexUpper nid :: toHexUpper nsp :: "0" :: "0" :: "0"
        :: pySplitColon (pyQuote url ++ (":" ++ (nm ++ ("\n#DESCRIPTION: " ++ (nm ++ ("\n")))))) := by
    show pySplitColon (st ++ (":" ++ ("0" ++ (":" ++ (pyDecRepr s_type ++ (":" ++ (toHexUpper sid ++ (":" ++ (toHexUpper tid ++ (":" ++ (toHexUpper nid ++ (":" ++ (toHexUpper nsp ++ (":" ++ ("0" ++ (":" ++ ("0" ++ (":" ++ ("0" ++ (":" ++ (pyQuote url ++ (":" ++ (nm ++ ("\n#DESCRIPTION: " ++ (nm ++ ("\n"))))))))))))))))))))))))))
        = st :: "0" :: pyDecRepr s_type :: toHexUpper sid :: toHexUpper tid
          :: toHexUpper nid :: toHexUpper nsp :: "0" :: "0" :: "0"
          :: pySplitColon (pyQuote url ++ (":" ++ (nm ++ ("\n#DESCRIPTION: " ++ (nm ++ ("\n"))))))
    rw [pySplitColon_append st _ hcolon,
      pySplitColon_append "0" _ (by decide),
      pySplitColon_append (pyDecRepr s_type) _ (pyDecRepr_ne_colon s_type),
      pySplitColon_append (toHexUpper sid) _ (toHexUpper_ne_colon sid),
      pySplitColon_append (toHexUpper tid) _ (toHexUpper_ne_colon tid),
      pySplitColon_append (toHexUpper nid) _ (toHexUpper_ne_colon nid),
      pySplitColon_append (toHexUpper nsp) _ (toHexUpper_ne_colon nsp),
      pySplitColon_append "0" _ (by decide),
      pySplitColon_append "0" _ (by decide),
      pySplitColon_append "0" _ (by decide)]
  simp only [bouquetPiconId]
  rw [hfav, pyLstrip_space_append _ _ hstne hws, hsplit]
  have hpos : 0 < (pySplitColon (pyQuote url ++ (":" ++ (nm ++ ("\n#DESCRIPTION: " ++ (nm ++ ("\n"))))))).length :=
    List.length_pos.mpr (splitColonAux_ne_nil _ _)
  have hlen : 10 < (st :: "0" :: pyDecRepr s_type :: toHexUpper sid :: toHexUpper tid
      :: toHexUpper nid :: toHexUpper nsp :: "0" :: "0" :: "0"
      :: pySplitColon (pyQuote url ++ (":" ++ (nm ++ ("\n#DESCRIPTION: " ++ (nm ++ ("\n"))))))).length := by
    simp only [List.length_cons]
    omega
  rw [if_pos hlen]
  rfl

/-- C8: two services with identical identity fields (stream type, dvb type,
SID, TID, NID, namespace) derive an identical PiconID regardless of display
name (and URL), at both derivation sites: the bouquet-population site
computes it from the first ten colon-fields of the service reference, which
are exactly the identity fields, and the IPTV-service dialog computes it
directly from the identity fields; both results carry a `.png` suffix. -/
theorem picon_id_pure_identity (st : String) (s_type sid tid nid nsp : Nat)
    (url1 name1 url2 name2 : String) (hst : st ≠ "")
    (hstc : ∀ c ∈ st.data, ¬(c.isWhitespace = true) ∧ c ≠ ':') :
    bouquetPiconId (get_fav_id url1 name1 (some st) (some (sid, tid, nid, nsp)) s_type)
      = some (String.intercalate "_"
          [st, "0", pyDecRepr s_type, toHexUpper sid, toHexUpper tid,
           toHexUpper nid, toHexUpper nsp, "0", "0", "0"] ++ ".png")
    ∧ bouquetPiconId (get_fav_id url1 name1 (some st) (some (sid, tid, nid, nsp)) s_type)
        = bouquetPiconId (get_fav_id url2 name2 (some st) (some (sid, tid, nid, nsp)) s_type)
    ∧ (∃ p, bouquetPiconId
          (get_fav_id url1 name1 (some st) (some (sid, tid, nid, nsp)) s_type)
        = some (p ++ ".png"))
    ∧ (∃ q, dialogPiconId st s_type sid tid nid nsp = q ++ ".png") := by
  have k1 := bouquetPiconId_get_fav_id st s_type sid tid nid nsp url1 name1 hst hstc
  have k2 := bouquetPiconId_get_fav_id st s_type sid tid nid nsp url2 name2 hst hstc
  refine ⟨k1, k1.trans k2.symm, ⟨_, k1⟩, ?_⟩
  refine ⟨st ++ "_0_" ++ toHexUpper s_type ++ "_" ++ pyDecRepr sid ++ "_"
    ++ pyDecRepr tid ++ "_" ++ pyDecRepr nid ++ "_" ++ pyDecRepr nsp ++ "_0_0_0", ?_⟩
  apply String.ext
  simp [dialogPiconId, String.data_append]

/-- C8 witness: identical PiconIDs for two concrete services sharing
identity fields but with different names and URLs. -/
theorem picon_id_pure_identity_witness :
    bouquetPiconId (get_fav_id "http://127.0.0.1/ch1" "Channel One"
        (some "4097") (some (10, 20, 30, 40)) 1)
      = some (String.intercalate "_"
          ["4097", "0", pyDecRepr 1, toHexUpper 10, toHexUpper 20,
           toHexUpper 30, toHexUpper 40, "0", "0", "0"] ++ ".png")
    ∧ bouquetPiconId (get_fav_id "http://127.0.0.1/ch1" "Channel One"
        (some "4097") (some (10, 20, 30, 40)) 1)
      = bouquetPiconId (get_fav_id "http://example.org/x" "Other:Name"
          (some "4097") (some (10, 20, 30, 40)) 1) :=
  have h := picon_id_pure_identity "4097" 1 10 20 30 40 "http://127.0.0.1/ch1"
    "Channel One" "http://example.org/x" "Other:Name" (by decide) (by decide)
  ⟨h.1, h.2.1⟩

end E2Toolkit
